import Mathlib

/-!
Shallow embedding of the chproxy core (proxy.go and the metrics
registration file) for checking the natural-language specification.

Go maps are modelled as association lists with head insertion, so that a
later insertion for the same key shadows an earlier one, exactly as a Go
map overwrite does, and `List.lookup` (first match) implements map lookup.
Go `time.Duration` values are modelled as natural numbers of nanoseconds;
`int(d.Seconds())` becomes division by 10^9 (truncation toward zero).
Pointers that may be nil (`*host`) are modelled as `Option`.
-/

namespace Chproxy

/-- One backend network endpoint address, as produced by
`url.Parse(fmt.Sprintf("%s://%s", c.Scheme, node))` in ApplyConfig. -/
structure Addr where
  scheme : String
  host : String
deriving DecidableEq, Repr

/-- Go struct `host` from proxy.go: an address plus the live running-queries counter. -/
structure Host where
  addr : Addr
  runningQueries : Nat
deriving DecidableEq, Repr

/-- Go struct `executionUser` from the repository: name, password, the two limits and
the live running-queries counter.  (The struct itself is declared outside
proxy.go; its fields are those read and written by proxy.go and described
in the spec's data model.) -/
structure ExecutionUser where
  name : String
  password : String
  maxConcurrentQueries : Nat
  maxExecutionTime : Nat
  runningQueries : Nat
deriving DecidableEq, Repr

/-- Go struct `initialUser` from the repository: it embeds `executionUser` (Go struct
embedding) and adds the (toCluster, toUser) mapping, exactly as built by
ApplyConfig in proxy.go. -/
structure InitialUser where
  executionUser : ExecutionUser
  toCluster : String
  toUser : String
deriving DecidableEq, Repr

/-- Go struct `cluster` from proxy.go: a host list plus the execution-user map. -/
structure Cluster where
  hosts : List Host
  users : List (String × ExecutionUser)
deriving DecidableEq, Repr

/-- State of `reverseProxy`: the mutable state from proxy.go: the initial-user map and
the cluster map (the embedded httputil.ReverseProxy and the mutex carry no
algorithmic state). -/
structure ReverseProxy where
  users : List (String × InitialUser)
  clusters : List (String × Cluster)
deriving DecidableEq, Repr

/-- Go map insertion: the new binding shadows any earlier one. -/
def mapInsert {α : Type} (m : List (String × α)) (k : String) (v : α) :
    List (String × α) :=
  (k, v) :: m

/-- Go's `%q` verb on the names appearing in error messages (quote
wrapping; escaping of special characters inside the name is not exercised
by any message the code builds from configured names). -/
def quoted (s : String) : String :=
  "\"" ++ s ++ "\""

/-! ### Configuration (external `config` package, not under src/) -/

/-- Modelled from the spec: one entry of a cluster's execution-user list in
the configuration, which per §6 carries "name, password, limits"; the
`config` package itself is not among the provided sources.
`maxExecutionTime` is in nanoseconds. -/
structure ConfigOutUser where
  name : String
  password : String
  maxConcurrentQueries : Nat
  maxExecutionTime : Nat
deriving DecidableEq, Repr

/-- Modelled from the spec: one cluster of the configuration — "name, URL
scheme, node address list, execution-user list" (§6); the `config` package
is not among the provided sources. -/
structure ConfigCluster where
  name : String
  scheme : String
  nodes : List String
  outUsers : List ConfigOutUser
deriving DecidableEq, Repr

/-- Modelled from the spec: one global (initial) user of the configuration —
"name, password, limits, target cluster, target execution user" (§6); the
`config` package is not among the provided sources.  `maxExecutionTime` is
in nanoseconds. -/
structure ConfigGlobalUser where
  name : String
  password : String
  maxConcurrentQueries : Nat
  maxExecutionTime : Nat
  toCluster : String
  toUser : String
deriving DecidableEq, Repr

/-- Modelled from the spec: the validated configuration structure consumed
by ApplyConfig (§6); the `config` package is not among the provided
sources. -/
structure Config where
  clusters : List ConfigCluster
  globalUsers : List ConfigGlobalUser
  logDebug : Bool
deriving DecidableEq, Repr

/-- Modelled from the spec: `cfg.Validate()` of the external config
package.  The spec treats the configuration handed to ApplyConfig as "a
validated structure" and specifies no check performed by Validate itself,
so it is modelled as accepting every configuration; the dangling-reference
checks the claims are about are the explicit ones inside ApplyConfig. -/
def Config.validate (_cfg : Config) : Option String :=
  none

/-! ### ApplyConfig (proxy.go lines 118-183) -/

/-- The execution-user map built for one cluster by ApplyConfig
(proxy.go lines 140-146): note the source populates only `name` and
`password`; the remaining fields keep their Go zero values. -/
def buildClusterUsers (ous : List ConfigOutUser) : List (String × ExecutionUser) :=
  ous.foldl
    (fun m u =>
      mapInsert m u.name
        { name := u.name
          password := u.password
          maxConcurrentQueries := 0
          maxExecutionTime := 0
          runningQueries := 0 })
    []

/-- The host list built for one cluster by ApplyConfig (proxy.go lines
128-138).  `url.Parse` of `scheme://node` yields scheme and host verbatim
for the well-formed address strings a configuration carries; its failure
path is not modelled. -/
def buildHosts (scheme : String) (nodes : List String) : List Host :=
  nodes.map fun node => { addr := { scheme := scheme, host := node }, runningQueries := 0 }

/-- The cluster map built by ApplyConfig (proxy.go lines 126-152). -/
def buildClusters (ccs : List ConfigCluster) : List (String × Cluster) :=
  ccs.foldl
    (fun m c =>
      mapInsert m c.name
        { hosts := buildHosts c.scheme c.nodes
          users := buildClusterUsers c.outUsers })
    []

/-- ApplyConfig's error message for an initial user naming an unknown
cluster (proxy.go line 158). -/
def unknownClusterMsg (u : ConfigGlobalUser) : String :=
  "error while mapping user " ++ quoted u.name ++ " to cluster " ++
    quoted u.toCluster ++ ": no such cluster"

/-- ApplyConfig's error message for an initial user naming an unknown
execution user (proxy.go line 162). -/
def unknownUserMsg (u : ConfigGlobalUser) : String :=
  "error while mapping user " ++ quoted u.name ++ " to cluster's " ++
    quoted u.toCluster ++ " user " ++ quoted u.toUser ++ ": no such user"

/-- The initial-user map built by ApplyConfig (proxy.go lines 154-174):
each global user is checked against the freshly built cluster map; the
first dangling reference aborts with an error. -/
def buildInitialUsers (clusters : List (String × Cluster)) :
    List ConfigGlobalUser → List (String × InitialUser) →
    Except String (List (String × InitialUser))
  | [], acc => .ok acc
  | u :: us, acc =>
    match clusters.lookup u.toCluster with
    | none => .error (unknownClusterMsg u)
    | some c =>
      match c.users.lookup u.toUser with
      | none => .error (unknownUserMsg u)
      | some _ =>
        buildInitialUsers clusters us
          (mapInsert acc u.name
            { executionUser :=
                { name := u.name
                  password := u.password
                  maxConcurrentQueries := u.maxConcurrentQueries
                  maxExecutionTime := u.maxExecutionTime
                  runningQueries := 0 }
              toCluster := u.toCluster
              toUser := u.toUser })

/-- Function `reverseProxy.ApplyConfig` (proxy.go lines 118-183): validate, build
the new cluster map, build and cross-check the new initial-user map, and
only then assign both fields; on any error the receiver's state is
returned unchanged alongside the error. -/
def applyConfig (rp : ReverseProxy) (cfg : Config) : ReverseProxy × Option String :=
  match cfg.validate with
  | some e => (rp, some e)
  | none =>
    let clusters := buildClusters cfg.clusters
    match buildInitialUsers clusters cfg.globalUsers [] with
    | .error e => (rp, some e)
    | .ok ius => ({ users := ius, clusters := clusters }, none)

/-! ### getHost (proxy.go lines 250-269) -/

/-- The loop body of `cluster.getHost`: early return on a host with zero
running queries, otherwise track the host with the smallest count seen,
replacing the tracked host only on a strictly smaller count
(`idle.runningQueries > t.runningQueries`). -/
def getHostLoop : List Host → Option Host → Option Host
  | [], idle => idle
  | t :: rest, idle =>
    if t.runningQueries = 0 then some t
    else
      match idle with
      | none => getHostLoop rest (some t)
      | some i =>
        if i.runningQueries > t.runningQueries then getHostLoop rest (some t)
        else getHostLoop rest (some i)

/-- Function `cluster.getHost` (proxy.go lines 250-269). -/
def Cluster.getHost (c : Cluster) : Option Host :=
  getHostLoop c.hosts none

/-! ### getRequestScope (proxy.go lines 193-224) -/

/-- The per-request scope: (initial user, execution user, cluster, selected
host).  The host pointer may be nil when the cluster has no hosts, hence
`Option`. -/
structure Scope where
  initialUser : InitialUser
  executionUser : ExecutionUser
  cluster : Cluster
  host : Option Host
deriving DecidableEq, Repr

/-- The authentication-failure message of getRequestScope (proxy.go lines
201 and 205): identical for an unknown username and for a password
mismatch. -/
def authErr (name : String) : String :=
  "invalid username or password for user " ++ quoted name

/-- getRequestScope's message for a dangling cluster reference
(proxy.go line 210). -/
def bugClusterMsg (iu : InitialUser) : String :=
  "BUG: user " ++ quoted iu.executionUser.name ++ " matches to unknown cluster " ++
    quoted iu.toCluster

/-- getRequestScope's message for a dangling execution-user reference
(proxy.go line 215). -/
def bugUserMsg (iu : InitialUser) : String :=
  "BUG: user " ++ quoted iu.executionUser.name ++ " matches to unknown user " ++
    quoted iu.toUser ++ " at cluster " ++ quoted iu.toCluster

/-- Function `reverseProxy.getRequestScope` (proxy.go lines 193-224), with the
basic-auth credentials already extracted from the request. -/
def getRequestScope (rp : ReverseProxy) (name password : String) :
    Except String Scope :=
  match rp.users.lookup name with
  | none => .error (authErr name)
  | some iu =>
    if iu.executionUser.password ≠ password then .error (authErr name)
    else
      match rp.clusters.lookup iu.toCluster with
      | none => .error (bugClusterMsg iu)
      | some c =>
        match c.users.lookup iu.toUser with
        | none => .error (bugUserMsg iu)
        | some eu =>
          .ok { initialUser := iu, executionUser := eu, cluster := c,
                host := c.getHost }

/-! ### Admission controller (`scope.inc` / `scope.dec`)

The scope methods are declared outside proxy.go and are not among the
provided sources; they are modelled from the spec (§4.3). -/

/-- Increment the live counter of an execution user. -/
def bump (u : ExecutionUser) : ExecutionUser :=
  { u with runningQueries := u.runningQueries + 1 }

/-- Decrement the live counter of an execution user. -/
def drop (u : ExecutionUser) : ExecutionUser :=
  { u with runningQueries := u.runningQueries - 1 }

/-- Outcome of `scope.inc`: a resource-exhaustion rejection naming the
identity whose limit was hit, a nil-pointer dereference of the selected
host (possible because `getRequestScope` never guards against a hostless
cluster), or success with all three counters incremented. -/
inductive IncResult where
  | rejected (msg : String)
  | nilHost
  | ok (s : Scope)
deriving DecidableEq, Repr

/-- Modelled from the spec: `scope.inc` (§4.3) — atomically reserve one
slot in the initial user's, the execution user's and the selected host's
counters; fail all-or-nothing, naming whether the initial user's or the
execution user's limit was hit, when either user's running count would
exceed its configured maximum (limits of zero are not special-cased).
Incrementing the host counter dereferences the host pointer, so a nil
host is a panic, reached only after both limit checks pass. -/
def Scope.inc (s : Scope) : IncResult :=
  if s.initialUser.executionUser.maxConcurrentQueries ≤
      s.initialUser.executionUser.runningQueries then
    .rejected ("limits for initial user " ++ quoted s.initialUser.executionUser.name ++
      " are exceeded: maxConcurrentQueries limit")
  else if s.executionUser.maxConcurrentQueries ≤ s.executionUser.runningQueries then
    .rejected ("limits for execution user " ++ quoted s.executionUser.name ++
      " are exceeded: maxConcurrentQueries limit")
  else
    match s.host with
    | none => .nilHost
    | some h =>
      .ok { s with
              initialUser := { s.initialUser with
                                 executionUser := bump s.initialUser.executionUser }
              executionUser := bump s.executionUser
              host := some { h with runningQueries := h.runningQueries + 1 } }

/-- Modelled from the spec: `scope.dec` (§4.3) — unconditionally decrement
the same three counters. -/
def Scope.dec (s : Scope) : Scope :=
  { s with
      initialUser := { s.initialUser with
                         executionUser := drop s.initialUser.executionUser }
      executionUser := drop s.executionUser
      host := s.host.map fun h => { h with runningQueries := h.runningQueries - 1 } }

/-! ### ServeHTTP (proxy.go lines 45-103) -/

/-- Which of the three raced events fires first in ServeHTTP's `select`
(proxy.go lines 82-99): backend completion, the initial user's
maxExecutionTime, or the execution user's maxExecutionTime. -/
inductive RaceOutcome where
  | completed
  | initialTimeout
  | executionTimeout
deriving DecidableEq, Repr

/-- The User-Agent tag stamped on the outgoing request (proxy.go line 69). -/
def userAgent (s : Scope) : String :=
  "ClickHouseProxy: " ++ s.initialUser.executionUser.name

/-- The statement built by `cluster.killQueries` (proxy.go line 241):
`elapsed` arrives as `maxExecutionTime.Seconds()` and is truncated to a
whole integer by the Go `int(...)` conversion, here nanoseconds divided by
10^9. -/
def killQueryStmt (condition : String) (elapsedNs : Nat) : String :=
  "KILL QUERY WHERE " ++ condition ++ " AND elapsed >= " ++
    toString (elapsedNs / 1000000000)

/-- What one ServeHTTP run did after a successful admission: the
client-visible response body, the termination statement sent to the
cluster's hosts (if a deadline fired), how many times `s.dec()` ran, and
the scope's final counter state. -/
structure ServeResult where
  response : String
  kill : Option String
  decCalls : Nat
  finalScope : Scope
deriving DecidableEq, Repr

/-- Outcome of one ServeHTTP run: an error response before admission
(authentication / integrity / admission rejection, proxy.go lines 48-57),
a nil-pointer panic on the selected host, or a completed run. -/
inductive ServeOutcome where
  | clientError (msg : String)
  | nilHostPanic
  | served (r : ServeResult)
deriving DecidableEq, Repr

/-- The `select` block of ServeHTTP (proxy.go lines 82-101) run after a
successful admission: each branch builds its response (and, for the two
deadline branches, its termination statement), and `s.dec()` runs exactly
once after the race resolves.  The timeout response bodies carry the
identity's name as in the source; the `%v`-formatted duration and the
proxied backend body are not modelled (no claim concerns them). -/
def serveAdmitted (s1 : Scope) (race : RaceOutcome) : ServeResult :=
  match race with
  | .initialTimeout =>
    let condition := "http_user_agent = '" ++ userAgent s1 ++ "'"
    { response := "timeout for initial user " ++
        quoted s1.initialUser.executionUser.name ++ " exceeded"
      kill := some (killQueryStmt condition
        s1.initialUser.executionUser.maxExecutionTime)
      decCalls := 1
      finalScope := s1.dec }
  | .executionTimeout =>
    let condition := "initial_user = '" ++ s1.executionUser.name ++ "'"
    { response := "timeout for execution user " ++
        quoted s1.executionUser.name ++ " exceeded"
      kill := some (killQueryStmt condition s1.executionUser.maxExecutionTime)
      decCalls := 1
      finalScope := s1.dec }
  | .completed =>
    { response := ""
      kill := none
      decCalls := 1
      finalScope := s1.dec }

/-- Function `reverseProxy.ServeHTTP` (proxy.go lines 45-103) with the race winner
made an explicit parameter. -/
def serveHTTP (rp : ReverseProxy) (name password : String)
    (race : RaceOutcome) : ServeOutcome :=
  match getRequestScope rp name password with
  | .error e => .clientError e
  | .ok s =>
    match s.inc with
    | .rejected e => .clientError e
    | .nilHost => .nilHostPanic
    | .ok s1 => .served (serveAdmitted s1 race)

/-- The termination statement issued by a ServeHTTP outcome, if any. -/
def killOf : ServeOutcome → Option String
  | .served r => r.kill
  | _ => none

/-- How many times `s.dec()` ran in a ServeHTTP outcome. -/
def decCallsOf : ServeOutcome → Nat
  | .served r => r.decCalls
  | _ => 0

/-! ### Metrics label tuples (metrics registration file and RoundTrip) -/

/-- The label names the `status_codes` counter vector is registered with
(metrics file, `prometheus.NewCounterVec` for `statusCodes`). -/
def statusCodesLabelNames : List String :=
  ["target", "code"]

/-- The label tuple `observableTransport.RoundTrip` uses to increment the
status-code metric for a backend response (proxy.go lines 278-280). -/
def roundTripStatusLabels (urlHost status : String) : List (String × String) :=
  [("host", urlHost), ("code", status)]

/-- Whether a label tuple is valid for a counter vector registered with
the given label names: the prometheus `With` call succeeds exactly when
the supplied map has one value for every registered name and nothing else
(otherwise it panics with an inconsistent-cardinality / unknown-label
error). -/
def labelsValid (names : List String) (ls : List (String × String)) : Bool :=
  ls.length == names.length && names.all fun n => (ls.lookup n).isSome

/-! ### Concrete fixtures used to evaluate the definitions -/

/-- An empty proxy state (the state before any ApplyConfig). -/
def rp0 : ReverseProxy :=
  { users := [], clusters := [] }

/-- A configuration whose single cluster execution user carries non-zero
limits (5 concurrent queries, 10 s). -/
def cfgLimits : Config :=
  { clusters :=
      [{ name := "c1"
         scheme := "http"
         nodes := ["n1:8123"]
         outUsers :=
           [{ name := "eu"
              password := "p"
              maxConcurrentQueries := 5
              maxExecutionTime := 10000000000 }] }]
    globalUsers :=
      [{ name := "alice"
         password := "pa"
         maxConcurrentQueries := 7
         maxExecutionTime := 7500000000
         toCluster := "c1"
         toUser := "eu" }]
    logDebug := false }

/-- The global user of `cfgBadCluster`, pointing at a cluster that does
not exist. -/
def gUserGhost : ConfigGlobalUser :=
  { name := "alice"
    password := "pa"
    maxConcurrentQueries := 7
    maxExecutionTime := 7500000000
    toCluster := "ghost"
    toUser := "eu" }

/-- A configuration whose initial user references a nonexistent cluster. -/
def cfgBadCluster : Config :=
  { clusters :=
      [{ name := "c1"
         scheme := "http"
         nodes := ["n1:8123"]
         outUsers := [{ name := "eu", password := "p",
                        maxConcurrentQueries := 5, maxExecutionTime := 10000000000 }] }]
    globalUsers := [gUserGhost]
    logDebug := false }

/-- A backend host with two running queries. -/
def hostA : Host :=
  { addr := { scheme := "http", host := "n1:8123" }, runningQueries := 2 }

/-- Execution user `bob` with workable limits and one running query. -/
def euBob : ExecutionUser :=
  { name := "bob"
    password := "pb"
    maxConcurrentQueries := 9
    maxExecutionTime := 5999999999
    runningQueries := 1 }

/-- Initial user `alice`, mapped to cluster `c1` and execution user `bob`. -/
def iuAlice : InitialUser :=
  { executionUser :=
      { name := "alice"
        password := "pa"
        maxConcurrentQueries := 4
        maxExecutionTime := 7500000000
        runningQueries := 0 }
    toCluster := "c1"
    toUser := "bob" }

/-- A one-host cluster holding `bob`. -/
def clusterGood : Cluster :=
  { hosts := [hostA], users := [("bob", euBob)] }

/-- A proxy state on which requests from `alice` succeed end to end. -/
def rpGood : ReverseProxy :=
  { users := [("alice", iuAlice)], clusters := [("c1", clusterGood)] }

/-- The scope `getRequestScope rpGood "alice" "pa"` resolves to. -/
def sW : Scope :=
  { initialUser := iuAlice, executionUser := euBob, cluster := clusterGood,
    host := some hostA }

/-- The scope after a successful `inc` on `sW`. -/
def s1W : Scope :=
  { initialUser :=
      { iuAlice with executionUser := bump iuAlice.executionUser }
    executionUser := bump euBob
    cluster := clusterGood
    host := some { hostA with runningQueries := hostA.runningQueries + 1 } }

/-- A proxy state whose only initial user dangles to a nonexistent
cluster. -/
def iuDave : InitialUser :=
  { executionUser :=
      { name := "dave", password := "pd", maxConcurrentQueries := 1,
        maxExecutionTime := 1000000000, runningQueries := 0 }
    toCluster := "ghost"
    toUser := "eu" }

/-- Proxy state containing `dave` but no cluster at all. -/
def rpDangling : ReverseProxy :=
  { users := [("dave", iuDave)], clusters := [] }

/-- Initial user `carol`, mapped to the hostless cluster `c0`. -/
def iuCarol : InitialUser :=
  { executionUser :=
      { name := "carol", password := "pc", maxConcurrentQueries := 3,
        maxExecutionTime := 1000000000, runningQueries := 0 }
    toCluster := "c0"
    toUser := "eu0" }

/-- Execution user of the hostless cluster. -/
def euZero : ExecutionUser :=
  { name := "eu0", password := "p0", maxConcurrentQueries := 2,
    maxExecutionTime := 2000000000, runningQueries := 0 }

/-- A cluster with an empty host list. -/
def clusterEmpty : Cluster :=
  { hosts := [], users := [("eu0", euZero)] }

/-- A proxy state whose cluster has an empty host list. -/
def rpNoHosts : ReverseProxy :=
  { users := [("carol", iuCarol)], clusters := [("c0", clusterEmpty)] }

/-- The scope `getRequestScope rpNoHosts "carol" "pc"` resolves to: its
selected host is nil. -/
def sCarol : Scope :=
  { initialUser := iuCarol, executionUser := euZero, cluster := clusterEmpty,
    host := none }

/-- A three-host cluster with running counts [2, 3, 1]. -/
def clusterW : Cluster :=
  { hosts :=
      [{ addr := { scheme := "http", host := "n1" }, runningQueries := 2 },
       { addr := { scheme := "http", host := "n2" }, runningQueries := 3 },
       { addr := { scheme := "http", host := "n3" }, runningQueries := 1 }]
    users := [] }

/-! ## Theorems -/

/-- Invariant of the getHost loop: starting from a tracked host with a
positive count, the loop returns the first host of `i :: l` achieving the
minimum running-queries count. -/
theorem getHostLoop_spec (l : List Host) : ∀ i : Host, 0 < i.runningQueries →
    ∃ l1 h l2, getHostLoop l (some i) = some h ∧ i :: l = l1 ++ h :: l2 ∧
      (∀ x ∈ i :: l, h.runningQueries ≤ x.runningQueries) ∧
      ∀ x ∈ l1, h.runningQueries < x.runningQueries := by
  induction l with
  | nil =>
    intro i hi
    refine ⟨[], i, [], rfl, rfl, ?_, by simp⟩
    intro x hx
    have hx' : x = i := by simpa using hx
    subst hx'
    exact Nat.le_refl _
  | cons t rest ih =>
    intro i hi
    by_cases ht : t.runningQueries = 0
    · refine ⟨[i], t, rest, by simp [getHostLoop, ht], rfl, ?_, ?_⟩
      · intro x hx
        omega
      · intro x hx
        have hx' : x = i := by simpa using hx
        subst hx'
        omega
    · by_cases hcmp : i.runningQueries > t.runningQueries
      · have ht' : 0 < t.runningQueries := Nat.pos_of_ne_zero ht
        obtain ⟨l1, h, l2, hres, hdec, hmin, hstrict⟩ := ih t ht'
        have htm : h.runningQueries ≤ t.runningQueries :=
          hmin t (List.mem_cons_self t rest)
        refine ⟨i :: l1, h, l2, ?_, ?_, ?_, ?_⟩
        · simpa [getHostLoop, ht, hcmp] using hres
        · rw [List.cons_append, ← hdec]
        · intro x hx
          rcases List.mem_cons.mp hx with rfl | hx'
          · omega
          · exact hmin x hx'
        · intro x hx
          rcases List.mem_cons.mp hx with rfl | hx'
          · omega
          · exact hstrict x hx'
      · have hle : i.runningQueries ≤ t.runningQueries := Nat.le_of_not_lt hcmp
        obtain ⟨l1, h, l2, hres, hdec, hmin, hstrict⟩ := ih i hi
        cases l1 with
        | nil =>
          simp only [List.nil_append] at hdec
          injection hdec with h1 h2
          subst h1
          subst h2
          refine ⟨[], i, t :: rest, ?_, rfl, ?_, by simp⟩
          · simpa [getHostLoop, ht, hcmp] using hres
          · intro x hx
            rcases List.mem_cons.mp hx with rfl | hx'
            · exact Nat.le_refl _
            · rcases List.mem_cons.mp hx' with rfl | hx''
              · exact hle
              · exact hmin x (List.mem_cons_of_mem i hx'')
        | cons a l1' =>
          simp only [List.cons_append] at hdec
          injection hdec with h1 h2
          subst h1
          have hhi : h.runningQueries < i.runningQueries :=
            hstrict i (List.mem_cons_self i l1')
          refine ⟨i :: t :: l1', h, l2, ?_, ?_, ?_, ?_⟩
          · simpa [getHostLoop, ht, hcmp] using hres
          · simp only [List.cons_append]
            rw [h2]
          · intro x hx
            rcases List.mem_cons.mp hx with rfl | hx'
            · exact hmin _ (List.mem_cons_self _ rest)
            · rcases List.mem_cons.mp hx' with rfl | hx''
              · omega
              · exact hmin x (List.mem_cons_of_mem i hx'')
          · intro x hx
            rcases List.mem_cons.mp hx with rfl | hx'
            · exact hhi
            · rcases List.mem_cons.mp hx' with rfl | hx''
              · omega
              · exact hstrict x (List.mem_cons_of_mem i hx'')

/-- The getHost loop started with no tracked host returns the first host
of the list achieving the minimum running-queries count. -/
theorem getHostLoop_none_spec (l : List Host) (hne : l ≠ []) :
    ∃ l1 h l2, getHostLoop l none = some h ∧ l = l1 ++ h :: l2 ∧
      (∀ x ∈ l, h.runningQueries ≤ x.runningQueries) ∧
      ∀ x ∈ l1, h.runningQueries < x.runningQueries := by
  cases l with
  | nil => exact absurd rfl hne
  | cons t rest =>
    by_cases ht : t.runningQueries = 0
    · refine ⟨[], t, rest, by simp [getHostLoop, ht], rfl, ?_, by simp⟩
      intro x hx
      omega
    · have ht' : 0 < t.runningQueries := Nat.pos_of_ne_zero ht
      obtain ⟨l1, h, l2, hres, hdec, hmin, hstrict⟩ := getHostLoop_spec rest t ht'
      exact ⟨l1, h, l2, by simpa [getHostLoop, ht] using hres, hdec, hmin, hstrict⟩

/-- C3.  For a cluster with a non-empty host list, `getHost` returns the
first host (in list order) whose running-queries count is minimal over the
whole list — so a host with count 0 is returned at the first encounter,
and ties go to the first host encountered; in particular with counts
[0,3,1] it returns the count-0 host and with [2,3,1] the count-1 host. -/
theorem getHost_least_loaded (c : Cluster) (hne : c.hosts ≠ []) :
    (∃ l1 h l2, c.getHost = some h ∧ c.hosts = l1 ++ h :: l2 ∧
      (∀ x ∈ c.hosts, h.runningQueries ≤ x.runningQueries) ∧
      ∀ x ∈ l1, h.runningQueries < x.runningQueries) ∧
    (∀ a b d : Host, a.runningQueries = 0 → b.runningQueries = 3 →
      d.runningQueries = 1 →
      Cluster.getHost { hosts := [a, b, d], users := [] } = some a) ∧
    (∀ a b d : Host, a.runningQueries = 2 → b.runningQueries = 3 →
      d.runningQueries = 1 →
      Cluster.getHost { hosts := [a, b, d], users := [] } = some d) := by
  refine ⟨getHostLoop_none_spec c.hosts hne, ?_, ?_⟩
  · intro a b d ha hb hd
    simp [Cluster.getHost, getHostLoop, ha]
  · intro a b d ha hb hd
    simp [Cluster.getHost, getHostLoop, ha, hb, hd]

/-- Witness for C3 at a concrete cluster with counts [2,3,1]. -/
theorem getHost_least_loaded_witness :
    clusterW.hosts ≠ [] ∧
    ∃ l1 h l2, clusterW.getHost = some h ∧ clusterW.hosts = l1 ++ h :: l2 ∧
      (∀ x ∈ clusterW.hosts, h.runningQueries ≤ x.runningQueries) ∧
      ∀ x ∈ l1, h.runningQueries < x.runningQueries :=
  ⟨by decide, (getHost_least_loaded clusterW (by decide)).1⟩

/-- If any global user of the list has a dangling reference into the given
cluster map, building the initial-user map aborts with an error. -/
theorem buildInitialUsers_error (clusters : List (String × Cluster)) :
    ∀ (us : List ConfigGlobalUser) (acc : List (String × InitialUser)),
      (∃ u ∈ us, clusters.lookup u.toCluster = none ∨
        ∃ c, clusters.lookup u.toCluster = some c ∧ c.users.lookup u.toUser = none) →
      ∃ e, buildInitialUsers clusters us acc = .error e := by
  intro us
  induction us with
  | nil =>
    intro acc h
    obtain ⟨u, hu, _⟩ := h
    exact absurd hu (List.not_mem_nil u)
  | cons v vs ih =>
    intro acc h
    cases hv : clusters.lookup v.toCluster with
    | none => exact ⟨unknownClusterMsg v, by simp [buildInitialUsers, hv]⟩
    | some c =>
      cases hvu : c.users.lookup v.toUser with
      | none => exact ⟨unknownUserMsg v, by simp [buildInitialUsers, hv, hvu]⟩
      | some eu =>
        obtain ⟨u, hu, hbad⟩ := h
        rcases List.mem_cons.mp hu with rfl | hu'
        · rcases hbad with hnone | ⟨c', hc', hnouser⟩
          · rw [hv] at hnone
            exact absurd hnone (by simp)
          · rw [hv] at hc'
            injection hc' with hc'
            subst hc'
            rw [hvu] at hnouser
            exact absurd hnouser (by simp)
        · obtain ⟨e, he⟩ := ih _ ⟨u, hu', hbad⟩
          exact ⟨e, by simpa [buildInitialUsers, hv, hvu] using he⟩

/-- C4.  ApplyConfig is atomic: if some configured initial user references
a nonexistent cluster, or a nonexistent execution user within an existing
cluster, it returns an error and leaves the proxy's users and clusters
exactly as they were; and only when it returns no error are both maps
replaced by the freshly built generation. -/
theorem applyConfig_atomic (rp : ReverseProxy) (cfg : Config) :
    ((∃ u ∈ cfg.globalUsers,
        (buildClusters cfg.clusters).lookup u.toCluster = none ∨
        ∃ c, (buildClusters cfg.clusters).lookup u.toCluster = some c ∧
          c.users.lookup u.toUser = none) →
      (applyConfig rp cfg).2.isSome = true ∧ (applyConfig rp cfg).1 = rp) ∧
    ((applyConfig rp cfg).2 = none →
      (applyConfig rp cfg).1.clusters = buildClusters cfg.clusters ∧
      ∃ ius, buildInitialUsers (buildClusters cfg.clusters) cfg.globalUsers [] = .ok ius ∧
        (applyConfig rp cfg).1.users = ius) := by
  constructor
  · intro hbad
    obtain ⟨e, he⟩ := buildInitialUsers_error (buildClusters cfg.clusters)
      cfg.globalUsers [] hbad
    constructor
    · simp [applyConfig, Config.validate, he]
    · simp [applyConfig, Config.validate, he]
  · intro hok
    cases hres : buildInitialUsers (buildClusters cfg.clusters) cfg.globalUsers [] with
    | error e =>
      rw [show (applyConfig rp cfg).2 = some e by simp [applyConfig, Config.validate, hres]]
        at hok
      exact absurd hok (by simp)
    | ok ius =>
      refine ⟨?_, ius, rfl, ?_⟩
      · simp [applyConfig, Config.validate, hres]
      · simp [applyConfig, Config.validate, hres]

/-- Witness for C4: a configuration whose initial user points at the
nonexistent cluster "ghost" is rejected and the empty prior state is kept. -/
theorem applyConfig_atomic_witness :
    (applyConfig rp0 cfgBadCluster).2.isSome = true ∧
    (applyConfig rp0 cfgBadCluster).1 = rp0 :=
  (applyConfig_atomic rp0 cfgBadCluster).1
    ⟨gUserGhost, by decide, Or.inl (by decide)⟩

/-- C1.  ApplyConfig drops the configured limits of cluster execution
users: applying a configuration whose out-user carries the limits (5,
10 s) succeeds, yet the constructed executionUser has both limits at their
zero values (only name and password are copied). -/
theorem applyConfig_drops_execution_user_limits :
    (cfgLimits.clusters.head?.map fun c =>
      c.outUsers.map fun u => (u.maxConcurrentQueries, u.maxExecutionTime)) =
        some [(5, 10000000000)] ∧
    (applyConfig rp0 cfgLimits).2 = none ∧
    (((applyConfig rp0 cfgLimits).1.clusters.lookup "c1").bind fun c =>
      c.users.lookup "eu") =
        some { name := "eu", password := "p", maxConcurrentQueries := 0,
               maxExecutionTime := 0, runningQueries := 0 } :=
  ⟨rfl, rfl, by decide⟩

/-- C2.  The status-code metric is registered with label names
`["target", "code"]` but RoundTrip increments it with a tuple keyed by
`host` and `code`, so the increment is never valid against the registered
label names (the prometheus `With` call fails for every backend
response). -/
theorem roundTrip_status_labels_mismatch (urlHost status : String) :
    statusCodesLabelNames = ["target", "code"] ∧
    (roundTripStatusLabels urlHost status).map Prod.fst = ["host", "code"] ∧
    labelsValid statusCodesLabelNames (roundTripStatusLabels urlHost status) =
      false :=
  ⟨rfl, rfl, rfl⟩

/-- Dropping a live count right after bumping it restores the user. -/
theorem drop_bump (u : ExecutionUser) : drop (bump u) = u := by
  cases u
  simp [bump, drop]

/-- Inversion of a successful `inc`: the selected host exists and the
resulting scope is the original with all three counters bumped. -/
theorem inc_ok_inv (s s1 : Scope) (h : s.inc = .ok s1) :
    ∃ hst, s.host = some hst ∧
      s1 = { s with
               initialUser := { s.initialUser with
                                  executionUser := bump s.initialUser.executionUser }
               executionUser := bump s.executionUser
               host := some { hst with runningQueries := hst.runningQueries + 1 } } := by
  unfold Scope.inc at h
  by_cases h1 : s.initialUser.executionUser.maxConcurrentQueries ≤
      s.initialUser.executionUser.runningQueries
  · rw [if_pos h1] at h
    exact absurd h (by simp)
  · rw [if_neg h1] at h
    by_cases h2 : s.executionUser.maxConcurrentQueries ≤ s.executionUser.runningQueries
    · rw [if_pos h2] at h
      exact absurd h (by simp)
    · rw [if_neg h2] at h
      cases hh : s.host with
      | none =>
        rw [hh] at h
        exact absurd h (by simp)
      | some hst =>
        rw [hh] at h
        injection h with h
        exact ⟨hst, rfl, h.symm⟩

/-- Running `dec` after a successful `inc` restores the scope exactly. -/
theorem inc_dec_id (s s1 : Scope) (h : s.inc = .ok s1) : s1.dec = s := by
  obtain ⟨hst, hh, rfl⟩ := inc_ok_inv s s1 h
  unfold Scope.dec
  cases s with
  | mk iu eu cl ho =>
    cases iu with
    | mk iueu tc tu =>
      cases hst with
      | mk addr rq =>
        simp only at hh
        subst hh
        simp [drop_bump, drop, bump]

/-- Rewriting lemma: on the admitted path ServeHTTP runs exactly the
select block. -/
theorem serveHTTP_admitted_eq (rp : ReverseProxy) (name password : String)
    (race : RaceOutcome) (s s1 : Scope)
    (hs : getRequestScope rp name password = .ok s)
    (hinc : s.inc = .ok s1) :
    serveHTTP rp name password race = .served (serveAdmitted s1 race) := by
  simp [serveHTTP, hs, hinc]

/-- C5.  For every request whose admission succeeds, ServeHTTP calls
`dec` exactly once on every branch of the completion/timeout race (and the
scope's three counters return to their pre-admission values); for every
request whose admission does not succeed, `dec` is never called. -/
theorem serveHTTP_dec_pairing (rp : ReverseProxy) (name password : String)
    (race : RaceOutcome) :
    (∀ s s1, getRequestScope rp name password = .ok s → s.inc = .ok s1 →
      ∃ r, serveHTTP rp name password race = .served r ∧ r.decCalls = 1 ∧
        r.finalScope = s) ∧
    ((∀ s, getRequestScope rp name password = .ok s → ∀ s1, s.inc ≠ .ok s1) →
      decCallsOf (serveHTTP rp name password race) = 0) := by
  constructor
  · intro s s1 hs hinc
    have hdec := inc_dec_id s s1 hinc
    refine ⟨serveAdmitted s1 race, serveHTTP_admitted_eq rp name password race s s1 hs hinc,
      ?_, ?_⟩
    · cases race <;> rfl
    · cases race <;> exact hdec
  · intro hfail
    cases hg : getRequestScope rp name password with
    | error e => simp [decCallsOf, serveHTTP, hg]
    | ok s =>
      cases hi : s.inc with
      | rejected e => simp [decCallsOf, serveHTTP, hg, hi]
      | nilHost => simp [decCallsOf, serveHTTP, hg, hi]
      | ok s1 => exact absurd hi (hfail s hg s1)

/-- Witness for C5 at a concrete admitted request. -/
theorem serveHTTP_dec_pairing_witness :
    ∃ r, serveHTTP rpGood "alice" "pa" RaceOutcome.completed = .served r ∧
      r.decCalls = 1 ∧ r.finalScope = sW :=
  (serveHTTP_dec_pairing rpGood "alice" "pa" RaceOutcome.completed).1 sW s1W
    (by rfl) (by rfl)

/-- C6.  On either deadline, the termination statement sent to the cluster
hosts is exactly `KILL QUERY WHERE <condition> AND elapsed >= <whole
seconds>`: the elapsed bound is the fired limit in seconds truncated to a
whole integer, the initial-user branch filters by
`http_user_agent = 'ClickHouseProxy: <initial-user-name>'`, and the
execution-user branch filters by `initial_user = '<execution-user-name>'`. -/
theorem serveHTTP_kill_statement (rp : ReverseProxy) (name password : String)
    (s s1 : Scope) (hs : getRequestScope rp name password = .ok s)
    (hinc : s.inc = .ok s1) :
    killOf (serveHTTP rp name password RaceOutcome.initialTimeout) =
      some ("KILL QUERY WHERE " ++
        ("http_user_agent = '" ++
          ("ClickHouseProxy: " ++ s1.initialUser.executionUser.name) ++ "'") ++
        " AND elapsed >= " ++
        toString (s1.initialUser.executionUser.maxExecutionTime / 1000000000)) ∧
    killOf (serveHTTP rp name password RaceOutcome.executionTimeout) =
      some ("KILL QUERY WHERE " ++
        ("initial_user = '" ++ s1.executionUser.name ++ "'") ++
        " AND elapsed >= " ++
        toString (s1.executionUser.maxExecutionTime / 1000000000)) := by
  constructor
  · rw [serveHTTP_admitted_eq rp name password RaceOutcome.initialTimeout s s1 hs hinc]
    rfl
  · rw [serveHTTP_admitted_eq rp name password RaceOutcome.executionTimeout s s1 hs hinc]
    rfl

/-- Witness for C6: from `rpGood`, the initial-user deadline (7.5 s,
truncated to 7) and the execution-user deadline (5.999999999 s, truncated
to 5) yield these exact statements. -/
theorem serveHTTP_kill_statement_witness :
    killOf (serveHTTP rpGood "alice" "pa" RaceOutcome.initialTimeout) =
      some "KILL QUERY WHERE http_user_agent = 'ClickHouseProxy: alice' AND elapsed >= 7" ∧
    killOf (serveHTTP rpGood "alice" "pa" RaceOutcome.executionTimeout) =
      some "KILL QUERY WHERE initial_user = 'bob' AND elapsed >= 5" := by
  have h := serveHTTP_kill_statement rpGood "alice" "pa" sW s1W (by rfl) (by rfl)
  exact ⟨by rw [h.1]; rfl, by rw [h.2]; rfl⟩

/-- Counterexample for C7: with initial user `alice` mapped to execution
user `bob`, the execution-user-timeout condition interpolates `bob` (the
execution user's name), not `alice` (the initial user's name embedded in
the User-Agent tag). -/
theorem kill_condition_counterexample :
    killOf (serveHTTP rpGood "alice" "pa" RaceOutcome.executionTimeout) =
      some "KILL QUERY WHERE initial_user = 'bob' AND elapsed >= 5" ∧
    some "KILL QUERY WHERE initial_user = 'bob' AND elapsed >= 5" ≠
      some ("KILL QUERY WHERE initial_user = '" ++ "alice" ++ "' AND elapsed >= 5") := by
  exact ⟨by rfl, by decide⟩

/-- C7 (amended).  When the execution user's maxExecutionTime fires first,
the name interpolated into the filter condition is the execution user's
name (the backend-side identity), not the initial-user name embedded in
the User-Agent tag. -/
theorem kill_condition_uses_execution_user_name (rp : ReverseProxy)
    (name password : String) (s s1 : Scope)
    (hs : getRequestScope rp name password = .ok s)
    (hinc : s.inc = .ok s1) :
    killOf (serveHTTP rp name password RaceOutcome.executionTimeout) =
      some ("KILL QUERY WHERE " ++
        ("initial_user = '" ++ s1.executionUser.name ++ "'") ++
        " AND elapsed >= " ++
        toString (s1.executionUser.maxExecutionTime / 1000000000)) := by
  rw [serveHTTP_admitted_eq rp name password RaceOutcome.executionTimeout s s1 hs hinc]
  rfl

/-- Witness for the amended C7. -/
theorem kill_condition_uses_execution_user_name_witness :
    killOf (serveHTTP rpGood "alice" "pa" RaceOutcome.executionTimeout) =
      some ("KILL QUERY WHERE " ++
        ("initial_user = '" ++ s1W.executionUser.name ++ "'") ++
        " AND elapsed >= " ++
        toString (s1W.executionUser.maxExecutionTime / 1000000000)) :=
  kill_condition_uses_execution_user_name rpGood "alice" "pa" sW s1W
    (by rfl) (by rfl)

/-- C8.  Both authentication-failure causes — unknown username, and known
username with a mismatching password — produce the identical error for
the same supplied username. -/
theorem getRequestScope_auth_indistinguishable (rp : ReverseProxy)
    (name password : String) :
    (rp.users.lookup name = none →
      getRequestScope rp name password = .error (authErr name)) ∧
    ∀ iu, rp.users.lookup name = some iu →
      iu.executionUser.password ≠ password →
      getRequestScope rp name password = .error (authErr name) := by
  constructor
  · intro h
    simp [getRequestScope, h]
  · intro iu h hpw
    simp [getRequestScope, h, hpw]

/-- Witness for C8: a known user with a wrong password gets the same
message an unknown user would get. -/
theorem getRequestScope_auth_indistinguishable_witness :
    getRequestScope rpGood "alice" "zzz" = .error (authErr "alice") :=
  (getRequestScope_auth_indistinguishable rpGood "alice" "zzz").2 iuAlice
    (by rfl) (by decide)

/-- The integrity error for a dangling cluster reference differs from the
authentication error (their first characters differ). -/
theorem bugClusterMsg_ne_authErr (iu : InitialUser) (n : String) :
    bugClusterMsg iu ≠ authErr n := by
  intro h
  have hB : (bugClusterMsg iu).data.head? = some 'B' := rfl
  have hi : (authErr n).data.head? = some 'i' := rfl
  rw [h, hi] at hB
  exact absurd hB (by decide)

/-- The integrity error for a dangling execution-user reference differs
from the authentication error. -/
theorem bugUserMsg_ne_authErr (iu : InitialUser) (n : String) :
    bugUserMsg iu ≠ authErr n := by
  intro h
  have hB : (bugUserMsg iu).data.head? = some 'B' := rfl
  have hi : (authErr n).data.head? = some 'i' := rfl
  rw [h, hi] at hB
  exact absurd hB (by decide)

/-- C9.  For an authenticated request, a dangling toCluster or toUser
reference makes getRequestScope fail with a "BUG:"-marked internal
inconsistency error, distinct from the authentication-failure error. -/
theorem getRequestScope_integrity_errors (rp : ReverseProxy)
    (name password : String) (iu : InitialUser)
    (h1 : rp.users.lookup name = some iu)
    (h2 : iu.executionUser.password = password) :
    (rp.clusters.lookup iu.toCluster = none →
      getRequestScope rp name password = .error (bugClusterMsg iu) ∧
      bugClusterMsg iu ≠ authErr name) ∧
    ∀ c, rp.clusters.lookup iu.toCluster = some c →
      c.users.lookup iu.toUser = none →
      getRequestScope rp name password = .error (bugUserMsg iu) ∧
      bugUserMsg iu ≠ authErr name := by
  constructor
  · intro hc
    refine ⟨?_, bugClusterMsg_ne_authErr iu name⟩
    simp [getRequestScope, h1, h2, hc]
  · intro c hc hcu
    refine ⟨?_, bugUserMsg_ne_authErr iu name⟩
    simp [getRequestScope, h1, h2, hc, hcu]

/-- Witness for C9: `dave` authenticates but points at the nonexistent
cluster "ghost". -/
theorem getRequestScope_integrity_errors_witness :
    getRequestScope rpDangling "dave" "pd" = .error (bugClusterMsg iuDave) ∧
    bugClusterMsg iuDave ≠ authErr "dave" :=
  (getRequestScope_integrity_errors rpDangling "dave" "pd" iuDave (by rfl)
    (by rfl)).1 (by rfl)

/-- Inversion of a successful getRequestScope: the scope's host is the
cluster's getHost result (no guard against a hostless cluster). -/
theorem getRequestScope_ok_inv (rp : ReverseProxy) (name password : String)
    (s : Scope) (h : getRequestScope rp name password = .ok s) :
    s.host = s.cluster.getHost := by
  unfold getRequestScope at h
  cases hl : rp.users.lookup name with
  | none =>
    rw [hl] at h
    exact absurd h (by simp)
  | some iu =>
    rw [hl] at h
    dsimp only at h
    by_cases hpw : iu.executionUser.password ≠ password
    · rw [if_pos hpw] at h
      exact absurd h (by simp)
    · rw [if_neg hpw] at h
      cases hc : rp.clusters.lookup iu.toCluster with
      | none =>
        rw [hc] at h
        exact absurd h (by simp)
      | some c =>
        rw [hc] at h
        dsimp only at h
        cases hcu : c.users.lookup iu.toUser with
        | none =>
          rw [hcu] at h
          exact absurd h (by simp)
        | some eu =>
          rw [hcu] at h
          dsimp only at h
          injection h with h
          subst h
          rfl

/-- C10.  For a cluster with an empty host list, getHost returns no host,
getRequestScope still returns a scope (with a nil host) rather than an
error, and ServeHTTP then dereferences the nil host pointer (a panic)
once both admission limit checks pass. -/
theorem empty_cluster_unguarded (rp : ReverseProxy) (name password : String)
    (s : Scope) (race : RaceOutcome)
    (hs : getRequestScope rp name password = .ok s)
    (hempty : s.cluster.hosts = [])
    (hiu : s.initialUser.executionUser.runningQueries <
      s.initialUser.executionUser.maxConcurrentQueries)
    (heu : s.executionUser.runningQueries < s.executionUser.maxConcurrentQueries) :
    s.cluster.getHost = none ∧ s.host = none ∧
    serveHTTP rp name password race = .nilHostPanic := by
  have hgh : s.cluster.getHost = none := by
    unfold Cluster.getHost
    rw [hempty]
    rfl
  have hhost : s.host = none := by
    rw [getRequestScope_ok_inv rp name password s hs, hgh]
  refine ⟨hgh, hhost, ?_⟩
  have hinc : s.inc = .nilHost := by
    unfold Scope.inc
    rw [if_neg (Nat.not_le.mpr hiu), if_neg (Nat.not_le.mpr heu), hhost]
  simp [serveHTTP, hs, hinc]

/-- Witness for C10 at the hostless cluster `c0`. -/
theorem empty_cluster_unguarded_witness :
    sCarol.cluster.getHost = none ∧ sCarol.host = none ∧
    serveHTTP rpNoHosts "carol" "pc" RaceOutcome.completed = .nilHostPanic :=
  empty_cluster_unguarded rpNoHosts "carol" "pc" sCarol RaceOutcome.completed
    (by rfl) (by rfl) (by decide) (by decide)

end Chproxy
